import Mathlib

/-!
# StreamDeckHID — verification of the device session and event-dispatch engine

Shallow embedding of the StreamDeckHID repository: the Vue frontend composable
`useStreamDeck` (src/src/App.vue), the HID `read_buttons` routine
(implementation guide, Phase 3), and — where the Rust backend source is not in
the repository — components modelled from the specification (the Edge Detector
`diff`, the Action Registry `dispatch`, the `disconnect_device` command and the
poller's event emission).
-/

namespace StreamDeckHID

/-! ## Data model -/

/-- Device information, mirroring the `DeviceInfo` interface of
`useStreamDeck` (src/src/App.vue). -/
structure DeviceInfo where
  path : String
  product_name : String
  serial_number : Option String
  vendor_id : Nat
  product_id : Nat
deriving Repr, DecidableEq

/-- Press (false→true) or release (true→false) edge of one button. -/
inductive Edge where
  | Pressed
  | Released
deriving Repr, DecidableEq

/-- A discrete button event: which button, and which edge. -/
structure ButtonEvent where
  index : Nat
  edge : Edge
deriving Repr, DecidableEq

/-- Number of buttons on the Stream Deck Original / MK.2 (5x3 grid),
`BUTTON_COUNT` in the source. -/
def BUTTON_COUNT : Nat := 15

/-- Size in bytes of the read buffer in `read_buttons`
(`let mut buf = [0u8; 512]`). -/
def BUF_SIZE : Nat := 512

/-- Byte offset of the button-state block for the MK.2 (`let offset = 4`). -/
def REPORT_OFFSET : Nat := 4

/-! ## HID device read (`read_buttons`, implementation guide Phase 3)

The Rust routine reads into a fresh zero-initialized 512-byte buffer:

```
let mut buf = [0u8; 512];
match self.device.read(&mut buf) {
    Ok(bytes_read) if bytes_read > 0 => {
        let offset = 4;
        for i in 0..BUTTON_COUNT {
            self.button_states[i] = buf[offset + i] != 0;
        }
    }
    Ok(_) => {}  // No data available
    Err(e) => return Err(format!("Read error: {}", e)),
}
Ok(&self.button_states)
```
-/

/-- Outcome of `self.device.read(&mut buf)`: `ok report` is a successful read
whose bytes are `report` (so `bytes_read = report.length`), `err` a read
error. -/
inductive ReadResult where
  | ok (report : List Nat)
  | err (e : String)
deriving Repr, DecidableEq

/-- The buffer contents after the device read: the report's bytes at the
front, the rest of the zero-initialized buffer still zero.  `buf[j]`. -/
def bufAfterRead (report : List Nat) (j : Nat) : Nat :=
  report.getD j 0

/-- The buffer indices `offset + i` read by the decode loop of
`read_buttons`. -/
def accessedIndices : List Nat :=
  (List.range BUTTON_COUNT).map (fun i => REPORT_OFFSET + i)

/-- The button states written by the decode loop:
`button_states[i] = buf[offset + i] != 0` for `i` in `0..BUTTON_COUNT`. -/
def decodeStates (report : List Nat) : List Bool :=
  (List.range BUTTON_COUNT).map (fun i => bufAfterRead report (REPORT_OFFSET + i) != 0)

/-- `read_buttons`, shallowly embedded.  Input: the current `button_states`
field and the device read outcome.  Output: the `button_states` field after
the call, and the returned `Result` (`Ok` carrying the states returned by
`Ok(&self.button_states)`, or the formatted read error). -/
def read_buttons (button_states : List Bool) (r : ReadResult) :
    List Bool × Except String (List Bool) :=
  match r with
  | .ok report =>
      if 0 < report.length then
        (decodeStates report, .ok (decodeStates report))
      else
        (button_states, .ok button_states)
  | .err e => (button_states, .error ("Read error: " ++ e))

/-! ## Frontend state (`useStreamDeck`, src/src/App.vue) -/

/-- The reactive state held by the `useStreamDeck` composable:
`devices`, `connectedDevice`, `buttonStates`. -/
structure StreamDeckState where
  devices : List DeviceInfo
  connectedDevice : Option DeviceInfo
  buttonStates : List Bool
deriving Repr, DecidableEq

/-- The frontend `connect(devicePath)`:

```
await invoke("connect_device", { devicePath });
const device = devices.value.find((d) => d.path === devicePath);
if (device) { connectedDevice.value = device; }
```

`backend` is the settled result of the `invoke` call; a rejected promise
throws, so nothing after the `await` runs and the state is unchanged. -/
def connect (st : StreamDeckState) (devicePath : String)
    (backend : Except String Unit) : StreamDeckState × Except String Unit :=
  match backend with
  | .error e => (st, .error e)
  | .ok _ =>
      match st.devices.find? (fun d => d.path == devicePath) with
      | some device => ({ st with connectedDevice := some device }, .ok ())
      | none => (st, .ok ())

/-- The frontend `disconnect()`:

```
await invoke("disconnect_device");
connectedDevice.value = null;
buttonStates.value = new Array(15).fill(false);
```
-/
def disconnect (st : StreamDeckState) (backend : Except String Unit) :
    StreamDeckState × Except String Unit :=
  match backend with
  | .error e => (st, .error e)
  | .ok _ =>
      ({ st with connectedDevice := none,
                 buttonStates := List.replicate 15 false }, .ok ())

/-- An open transport handle held by the backend's managed
`Mutex<Option<StreamDeck>>`. -/
structure TransportHandle where
  id : Nat
deriving Repr, DecidableEq

/-- Modelled from the spec: the `disconnect_device` Tauri command — its Rust
source (src-tauri/src/commands/streamdeck.rs) is not in the repository, only
the Phase 2 guide describing it.  It sets the managed `Option<StreamDeck>` to
`None`; dropping an open handle closes the transport, and when the state is
already `None` there is no handle to drop, so close is not invoked.  Returns
the session state after the call, whether the transport close ran, and the
command result ("Disconnect is idempotent: invoking it while already
`Disconnected` is a no-op success, not an error"). -/
def disconnect_device (session : Option TransportHandle) :
    Option TransportHandle × Bool × Except String Unit :=
  match session with
  | some _ => (none, true, .ok ())
  | none => (none, false, .ok ())

/-! ## Button-event listener lifecycle (`useStreamDeck`) -/

/-- The listener bookkeeping of `useStreamDeck`: the stored
`unlistenFn: UnlistenFn | null` (a registered unlisten function, identified by
a numeric handle), plus a count of how many times a stored unlisten function
has been invoked. -/
structure ListenerState where
  unlistenFn : Option Nat
  invocations : Nat
deriving Repr, DecidableEq

/-- `let unlistenFn: UnlistenFn | null = null;` — no listener registered, no
unlisten function ever invoked. -/
def initialListenerState : ListenerState :=
  { unlistenFn := none, invocations := 0 }

/-- `setupButtonListener()` once its `await listen(...)` resolves: stores the
returned unlisten function. -/
def setupButtonListener (st : ListenerState) (handle : Nat) : ListenerState :=
  { st with unlistenFn := some handle }

/-- `cleanupButtonListener()`:

```
if (unlistenFn) { unlistenFn(); unlistenFn = null; }
```
-/
def cleanupButtonListener (st : ListenerState) : ListenerState :=
  match st.unlistenFn with
  | some _ => { unlistenFn := none, invocations := st.invocations + 1 }
  | none => st

/-! ## Edge Detector and polling loop (modelled from the spec) -/

/-- Modelled from the spec: the Edge Detector `diff` (spec section 4.3) — the
Rust edge-detector source is not in the repository (the Phase 5 guide only
sketches a rising-edge check for button 0).  "For every index where
`previous[i] != current[i]`, emit one event in ascending index order;
`Pressed` when `current[i] == true`, `Released` otherwise.  Zero-length
previous/current mismatch is treated as all indices newly false→current". -/
def diff (previous current : List Bool) : List ButtonEvent :=
  (List.range current.length).filterMap (fun i =>
    if previous.getD i false ≠ current.getD i false then
      some { index := i,
             edge := if current.getD i false then Edge.Pressed else Edge.Released }
    else none)

/-- Modelled from the spec: the event sequences emitted across consecutive
poll ticks (spec section 4.4, "decode → diff against last_states → update
last_states") — the Rust poller source is not in the repository.  `prev` is
`last_states` at the start; `ticks` the decoded `ButtonState` of each tick. -/
def pollTrace (prev : List Bool) : List (List Bool) → List (List ButtonEvent)
  | [] => []
  | c :: rest => diff prev c :: pollTrace c rest

/-- How many events for button `b` with edge `ed` a tick's event list holds. -/
def countEvent (b : Nat) (ed : Edge) (evs : List ButtonEvent) : Nat :=
  evs.countP (fun e => decide (e.index = b ∧ e.edge = ed))

/-! ## Poller event emission (modelled from the spec) -/

/-- Modelled from the spec: one Connected-state poller tick (spec sections 4.4
and 6) — the Rust polling thread's source is not in the repository (the
Phase 3 guide only sketches it, and the frontend notes "The Rust backend will
emit streamdeck://button-state events when button states change").  The tick
reads and decodes via `read_buttons`, diffs against `last_states`, advances
`last_states`, and emits the full current state as the
`{buttons: 15 booleans}` payload only when the tick produced at least one
edge.  Returns (new `last_states`, payloads emitted this tick). -/
def pollerTick (prev : List Bool) (r : ReadResult) :
    List Bool × List (List Bool) :=
  match read_buttons prev r with
  | (_, .ok cur) => (cur, if diff prev cur = [] then [] else [cur])
  | (_, .error _) => (prev, [])

/-- Modelled from the spec: the poller loop over a sequence of device read
outcomes, collecting all emitted payloads. -/
def pollerRun (init : List Bool) : List ReadResult → List Bool × List (List Bool)
  | [] => (init, [])
  | r :: rest =>
      let t := pollerTick init r
      let k := pollerRun t.1 rest
      (k.1, t.2 ++ k.2)

/-! ## Action Registry and Dispatcher (modelled from the spec) -/

/-- An action: string type key plus string-keyed primitive parameters
(mirroring the `Action` struct documented in the README's action system). -/
structure Action where
  type : String
  params : List (String × String)
deriving Repr, DecidableEq

/-- Result of a dispatch: either exactly one handler was invoked (the model
records which one), or no handler is registered for the key and a `NotFound`
error naming the unknown key is returned with nothing invoked. -/
inductive DispatchResult (H : Type) where
  | invoked (handler : H)
  | notFound (key : String)
deriving Repr, DecidableEq

/-- Modelled from the spec: the Action Registry's mapping from type-string to
handler (spec section 4.5, README "Action System") — the Rust
src-tauri/src/actions module is not in the repository.  `register(type_key,
handler)` overwrites any existing handler for that key: the newest
registration is placed in front, and lookup takes the first match, so the
last registration for a key wins. -/
def registerHandler {H : Type} (reg : List (String × H)) (key : String)
    (handler : H) : List (String × H) :=
  (key, handler) :: reg

/-- Modelled from the spec: registry lookup — the handler most recently
registered for `key`, if any. -/
def lookupHandler {H : Type} (reg : List (String × H)) (key : String) :
    Option H :=
  (reg.find? (fun kv => kv.1 == key)).map (fun kv => kv.2)

/-- Modelled from the spec: `dispatch(action, context)` (spec section 4.5) —
looks up `action.type`; if absent, returns a `NotFound` error naming the
unknown key (never invokes a default silently); if present, invokes the
registered handler. -/
def dispatch {H : Type} (reg : List (String × H)) (a : Action) :
    DispatchResult H :=
  match lookupHandler reg a.type with
  | some h => .invoked h
  | none => .notFound a.type

/-- The spec-side property of `diff` claimed for equal-length inputs: the
emitted indices are exactly the differing indices in ascending order, each
exactly once, with the edge determined by the current value. -/
def DiffSpec (A B : List Bool) : Prop :=
  ((diff A B).map ButtonEvent.index =
      (List.range B.length).filter
        (fun i => decide (A.getD i false ≠ B.getD i false))) ∧
  (diff A B).Pairwise (fun e1 e2 => e1.index < e2.index) ∧
  (∀ e ∈ diff A B,
      A.getD e.index false ≠ B.getD e.index false ∧
      e.edge = (if B.getD e.index false then Edge.Pressed else Edge.Released)) ∧
  (∀ i, i < B.length → A.getD i false ≠ B.getD i false →
      ((diff A B).map ButtonEvent.index).count i = 1)

/-! ## Helper lemmas about `diff` -/

theorem filterMap_if_map_index (p : Nat → Prop) [DecidablePred p]
    (g : Nat → Edge) (l : List Nat) :
    ((l.filterMap (fun i =>
        if p i then some { index := i, edge := g i } else none)).map
      ButtonEvent.index) = l.filter (fun i => decide (p i)) := by
  induction l with
  | nil => rfl
  | cons a t ih =>
      by_cases h : p a
      · simp [List.filterMap_cons, if_pos h, List.filter_cons, h, ih]
      · simp [List.filterMap_cons, if_neg h, List.filter_cons, h, ih]

theorem diff_map_index (A B : List Bool) :
    (diff A B).map ButtonEvent.index =
      (List.range B.length).filter
        (fun i => decide (A.getD i false ≠ B.getD i false)) := by
  unfold diff
  exact filterMap_if_map_index
    (fun i => A.getD i false ≠ B.getD i false)
    (fun i => if B.getD i false then Edge.Pressed else Edge.Released) _

theorem mem_diff (A B : List Bool) (e : ButtonEvent) :
    e ∈ diff A B ↔
      e.index < B.length ∧ A.getD e.index false ≠ B.getD e.index false ∧
        e.edge = (if B.getD e.index false then Edge.Pressed
                  else Edge.Released) := by
  unfold diff
  rw [List.mem_filterMap]
  constructor
  · rintro ⟨i, hi, hf⟩
    rw [List.mem_range] at hi
    by_cases h : A.getD i false ≠ B.getD i false
    · rw [if_pos h] at hf
      injection hf with hf
      subst hf
      exact ⟨hi, h, rfl⟩
    · rw [if_neg h] at hf
      exact absurd hf (Option.noConfusion)
  · rintro ⟨hi, hne, hedge⟩
    refine ⟨e.index, List.mem_range.mpr hi, ?_⟩
    rw [if_pos hne]
    cases e with
    | mk idx ed =>
        simp only at hedge
        rw [hedge]

theorem diff_pairwise (A B : List Bool) :
    (diff A B).Pairwise (fun e1 e2 => e1.index < e2.index) := by
  have hfilter : ((List.range B.length).filter
      (fun i => decide (A.getD i false ≠ B.getD i false))).Pairwise (· < ·) :=
    List.Pairwise.sublist (List.filter_sublist _) (List.pairwise_lt_range _)
  rw [← diff_map_index A B] at hfilter
  exact List.pairwise_map.mp hfilter

theorem diff_self (A : List Bool) : diff A A = [] := by
  unfold diff
  rw [List.filterMap_eq_nil_iff]
  intro i _
  rw [if_neg]
  intro h
  exact h rfl

theorem countEvent_filterMap (p : Nat → Prop) [DecidablePred p]
    (g : Nat → Edge) (b : Nat) (ed : Edge) (l : List Nat) :
    countEvent b ed (l.filterMap (fun i =>
        if p i then some { index := i, edge := g i } else none)) =
      l.countP (fun i => decide (i = b ∧ p i ∧ g i = ed)) := by
  induction l with
  | nil => rfl
  | cons a t ih =>
      by_cases h : p a
      · rw [List.filterMap_cons, if_pos h]
        unfold countEvent at ih ⊢
        rw [List.countP_cons, List.countP_cons, ih]
        by_cases hab : a = b
        · subst hab
          by_cases hg : g a = ed
          · simp [h, hg]
          · simp [h, hg]
        · simp [hab]
      · rw [List.filterMap_cons, if_neg h]
        rw [List.countP_cons]
        simp [h, ih]

theorem countP_range_single (b n : Nat) (q : Nat → Prop) [DecidablePred q] :
    (List.range n).countP (fun i => decide (i = b ∧ q i)) =
      if b < n ∧ q b then 1 else 0 := by
  induction n with
  | zero => simp
  | succ m ih =>
      rw [List.range_succ, List.countP_append, ih, List.countP_cons,
        List.countP_nil]
      simp only [decide_eq_true_eq, Nat.zero_add]
      by_cases hq : q b
      · by_cases hbm : b < m
        · rw [if_pos ⟨hbm, hq⟩, if_neg (by rintro ⟨rfl, -⟩; omega),
            if_pos ⟨by omega, hq⟩]
        · by_cases hbe : b = m
          · subst hbe
            rw [if_neg (by rintro ⟨h1, -⟩; omega), if_pos ⟨rfl, hq⟩,
              if_pos ⟨by omega, hq⟩]
          · rw [if_neg (by rintro ⟨h1, -⟩; omega),
              if_neg (by rintro ⟨rfl, -⟩; omega),
              if_neg (by rintro ⟨h1, -⟩; omega)]
      · rw [if_neg (by rintro ⟨-, h1⟩; exact hq h1),
          if_neg (by rintro ⟨rfl, h1⟩; exact hq h1),
          if_neg (by rintro ⟨-, h1⟩; exact hq h1)]

theorem countEvent_diff (b : Nat) (ed : Edge) (p c : List Bool) :
    countEvent b ed (diff p c) =
      if b < c.length ∧ p.getD b false ≠ c.getD b false ∧
          (if c.getD b false then Edge.Pressed else Edge.Released) = ed
      then 1 else 0 := by
  unfold diff
  rw [countEvent_filterMap
    (fun i => p.getD i false ≠ c.getD i false)
    (fun i => if c.getD i false then Edge.Pressed else Edge.Released) b ed,
    countP_range_single b c.length
    (fun i => p.getD i false ≠ c.getD i false ∧
      (if c.getD i false then Edge.Pressed else Edge.Released) = ed)]

theorem pollTrace_hold_zero (b : Nat) (ed : Edge) :
    ∀ (run : List (List Bool)) (prev : List Bool),
      prev.getD b false = true → (∀ s ∈ run, s.getD b false = true) →
      ((pollTrace prev run).map (countEvent b ed)).sum = 0 := by
  intro run
  induction run with
  | nil => intro prev _ _; rfl
  | cons c rest ih =>
      intro prev hprev hrun
      have hc : c.getD b false = true := hrun c (by simp)
      have h0 : countEvent b ed (diff prev c) = 0 := by
        rw [countEvent_diff, if_neg]
        rintro ⟨-, hne, -⟩
        exact hne (hprev.trans hc.symm)
      rw [pollTrace, List.map_cons, List.sum_cons, h0,
        ih c hc (fun s hs => hrun s (by simp [hs])), Nat.add_zero]

/-! ## Claim theorems -/

/-- C1: For every pair of ButtonState sequences A and B of equal length,
diff(A, B) emits exactly one ButtonEvent for each index i where A[i] != B[i]
(no index repeated, no other index present), the events are in ascending
index order, and each event's edge is Pressed when B[i] is true and Released
when B[i] is false. -/
theorem diff_exact_changed_indices (A B : List Bool)
    (h : A.length = B.length) : DiffSpec A B := by
  refine ⟨diff_map_index A B, diff_pairwise A B, ?_, ?_⟩
  · intro e he
    rcases (mem_diff A B e).mp he with ⟨-, hne, hedge⟩
    exact ⟨hne, hedge⟩
  · intro i hi hne
    rw [diff_map_index A B]
    refine List.count_eq_one_of_mem ((List.nodup_range _).filter _) ?_
    rw [List.mem_filter]
    exact ⟨List.mem_range.mpr hi, decide_eq_true hne⟩

/-- Witness for C1 at A = [false, true], B = [true, true]. -/
theorem diff_exact_changed_indices_witness :
    ([false, true] : List Bool).length = ([true, true] : List Bool).length ∧
    DiffSpec [false, true] [true, true] :=
  ⟨by decide,
   diff_exact_changed_indices [false, true] [true, true] (by decide)⟩

/-- The spec-side property of a hold run for C3: across a run `c :: rest` of
ticks in which button `b` is held (having been up just before the run),
exactly one Pressed event for `b` is emitted in total, no Released event for
`b` is emitted during the run, and a (single) Released event for `b` follows
on a later tick exactly when the state returns to false. -/
def HoldSpec (b : Nat) (prev0 c : List Bool) (rest : List (List Bool)) :
    Prop :=
  ((pollTrace prev0 (c :: rest)).map (countEvent b Edge.Pressed)).sum = 1 ∧
  ((pollTrace prev0 (c :: rest)).map (countEvent b Edge.Released)).sum = 0 ∧
  ∀ next : List Bool, b < next.length →
    countEvent b Edge.Released
        (diff ((c :: rest).getLast (List.cons_ne_nil c rest)) next) =
      if next.getD b false = true then 0 else 1

/-- C3: For every run of N >= 1 consecutive poll ticks in which a given
button's state is true throughout (having transitioned from false before the
first tick of the run), exactly one Pressed event is emitted for that button
over the whole run, never a second Pressed event while it remains held; a
single Released event follows only when the state returns to false. -/
theorem hold_run_single_pressed (b : Nat) (prev0 c : List Bool)
    (rest : List (List Bool))
    (hprev : prev0.getD b false = false)
    (hb : b < c.length)
    (hc : c.getD b false = true)
    (hrest : ∀ s ∈ rest, s.getD b false = true) :
    HoldSpec b prev0 c rest := by
  have hfirstP : countEvent b Edge.Pressed (diff prev0 c) = 1 := by
    rw [countEvent_diff, if_pos]
    refine ⟨hb, ?_, ?_⟩
    · rw [hprev, hc]
      simp
    · rw [hc]
      rfl
  have hfirstR : countEvent b Edge.Released (diff prev0 c) = 0 := by
    rw [countEvent_diff, if_neg]
    rintro ⟨-, -, hed⟩
    rw [hc] at hed
    exact Edge.noConfusion hed
  refine ⟨?_, ?_, ?_⟩
  · rw [pollTrace, List.map_cons, List.sum_cons, hfirstP,
      pollTrace_hold_zero b Edge.Pressed rest c hc hrest]
  · rw [pollTrace, List.map_cons, List.sum_cons, hfirstR,
      pollTrace_hold_zero b Edge.Released rest c hc hrest]
  · intro next hnext
    have hlast :
        ((c :: rest).getLast (List.cons_ne_nil c rest)).getD b false = true := by
      have hmem := List.getLast_mem (List.cons_ne_nil c rest)
      rcases List.mem_cons.mp hmem with hh | hh
      · rw [hh]
        exact hc
      · exact hrest _ hh
    by_cases hn : next.getD b false = true
    · rw [if_pos hn, countEvent_diff, if_neg]
      rintro ⟨-, hne, -⟩
      exact hne (hlast.trans hn.symm)
    · have hn2 : next.getD b false = false := by
        cases hx : next.getD b false
        · rfl
        · exact absurd hx hn
      rw [if_neg hn, countEvent_diff, if_pos]
      refine ⟨hnext, ?_, ?_⟩
      · rw [hlast, hn2]
        simp
      · rw [hn2]
        rfl

/-- Witness for C3: button 0, up before the run, held for the two ticks
[true], [true]. -/
theorem hold_run_single_pressed_witness :
    (([false] : List Bool).getD 0 false = false ∧
     0 < ([true] : List Bool).length ∧
     ([true] : List Bool).getD 0 false = true ∧
     ∀ s ∈ ([[true]] : List (List Bool)), s.getD 0 false = true) ∧
    HoldSpec 0 [false] [true] [[true]] :=
  ⟨⟨by decide, by decide, by decide, by decide⟩,
   hold_run_single_pressed 0 [false] [true] [[true]] (by decide) (by decide)
     (by decide) (by decide)⟩

/-- C2 counterexample: the one-byte raw report [1] is strictly shorter than
offset + button_count = 4 + 15 = 19, yet `read_buttons` does not return a
DecodeError: it returns Ok with a ButtonState decoded from the zero-initialized
buffer (every button byte lies beyond the report, so all buttons read as
released), even overwriting previously held states. -/
theorem read_buttons_short_report_not_error :
    ([1] : List Nat).length < REPORT_OFFSET + BUTTON_COUNT ∧
    (read_buttons (List.replicate 15 true) (ReadResult.ok [1])).2 =
      Except.ok (List.replicate 15 false) := by
  constructor
  · decide
  · rfl

/-- C2 (amended): For every raw report whose length is strictly less than
offset + button_count (= 19 for the MK.2 constants in the source),
`read_buttons` never panics — every buffer index the decode loop reads is
within the 512-byte zero-initialized buffer — and it never returns a
DecodeError: it returns Ok with the previous states when the report is empty,
and otherwise Ok with a ButtonState decoded from the zero-padded buffer, in
which every button whose byte lies beyond the report reads as released. -/
theorem read_buttons_short_report_ok (prev : List Bool) (report : List Nat)
    (hshort : report.length < REPORT_OFFSET + BUTTON_COUNT) :
    (∀ j ∈ accessedIndices, j < BUF_SIZE) ∧
    (∀ e : String,
      (read_buttons prev (ReadResult.ok report)).2 ≠ Except.error e) ∧
    (report.length = 0 →
      read_buttons prev (ReadResult.ok report) = (prev, Except.ok prev)) ∧
    (0 < report.length →
      read_buttons prev (ReadResult.ok report) =
        (decodeStates report, Except.ok (decodeStates report)) ∧
      ∀ i, i < BUTTON_COUNT → report.length ≤ REPORT_OFFSET + i →
        (decodeStates report).getD i true = false) := by
  refine ⟨by decide, ?_, ?_, ?_⟩
  · intro e
    by_cases h : 0 < report.length
    · simp [read_buttons, h]
    · simp [read_buttons, h]
  · intro h0
    simp [read_buttons, h0]
  · intro hpos
    refine ⟨by simp [read_buttons, hpos], ?_⟩
    intro i hi hle
    have hidx : (decodeStates report).getD i true =
        (bufAfterRead report (REPORT_OFFSET + i) != 0) := by
      unfold decodeStates
      rw [List.getD_eq_getElem?_getD, List.getElem?_map,
        List.getElem?_range hi]
      rfl
    rw [hidx]
    unfold bufAfterRead
    rw [List.getD_eq_getElem?_getD, List.getElem?_eq_none hle]
    rfl

/-- Witness for C2 (amended) at the one-byte report [1] with all buttons
previously held. -/
theorem read_buttons_short_report_ok_witness :
    ([1] : List Nat).length < REPORT_OFFSET + BUTTON_COUNT ∧
    ((∀ j ∈ accessedIndices, j < BUF_SIZE) ∧
     (∀ e : String,
       (read_buttons (List.replicate 15 true) (ReadResult.ok [1])).2 ≠
         Except.error e) ∧
     (([1] : List Nat).length = 0 →
       read_buttons (List.replicate 15 true) (ReadResult.ok [1]) =
         (List.replicate 15 true, Except.ok (List.replicate 15 true))) ∧
     (0 < ([1] : List Nat).length →
       read_buttons (List.replicate 15 true) (ReadResult.ok [1]) =
         (decodeStates [1], Except.ok (decodeStates [1])) ∧
       ∀ i, i < BUTTON_COUNT → ([1] : List Nat).length ≤ REPORT_OFFSET + i →
         (decodeStates [1]).getD i true = false)) :=
  ⟨by decide, read_buttons_short_report_ok (List.replicate 15 true) [1]
    (by decide)⟩

/-- C9: For every call to read_buttons in which the device read returns zero
bytes (no report available), the stored button_states field is left unchanged
and the call returns success with the previous states; only reads returning
at least one byte modify button_states (a failed read also leaves the field
unchanged). -/
theorem read_buttons_empty_read_no_change (prev : List Bool) :
    read_buttons prev (ReadResult.ok []) = (prev, Except.ok prev) ∧
    (∀ e : String, read_buttons prev (ReadResult.err e) =
      (prev, Except.error ("Read error: " ++ e))) ∧
    (∀ report : List Nat,
      (read_buttons prev (ReadResult.ok report)).1 ≠ prev →
      0 < report.length) := by
  refine ⟨rfl, fun e => rfl, ?_⟩
  intro report hne
  by_contra h
  apply hne
  simp [read_buttons, h]

/-- Witness for C9: the report [1] does change the field away from all-held
previous states, and indeed has at least one byte. -/
theorem read_buttons_empty_read_no_change_witness :
    (read_buttons (List.replicate 15 true) (ReadResult.ok [1])).1 ≠
      List.replicate 15 true ∧
    0 < ([1] : List Nat).length :=
  ⟨by decide,
   (read_buttons_empty_read_no_change (List.replicate 15 true)).2.2 [1]
     (by decide)⟩

/-- A sample discovered device, for concrete witnesses. -/
def sampleDevice : DeviceInfo :=
  { path := "hid-path-0", product_name := "Stream Deck MK.2",
    serial_number := none, vendor_id := 4057, product_id := 128 }

/-- A sample disconnected frontend state holding one discovered device. -/
def sampleState : StreamDeckState :=
  { devices := [sampleDevice], connectedDevice := none,
    buttonStates := List.replicate 15 false }

/-- C4: For every path for which the transport open fails, connect returns a
TransportError and the Session state afterwards is Disconnected, with no side
effects: no connected-device handle is retained (connectedDevice stays null)
and last_states is not created or modified (the whole frontend state is
unchanged). -/
theorem connect_error_leaves_disconnected (st : StreamDeckState)
    (p e : String) (h : st.connectedDevice = none) :
    connect st p (Except.error e) = (st, Except.error e) ∧
    (connect st p (Except.error e)).1.connectedDevice = none ∧
    (connect st p (Except.error e)).1.buttonStates = st.buttonStates :=
  ⟨rfl, h, rfl⟩

/-- Witness for C4 at the sample disconnected state and a nonexistent path. -/
theorem connect_error_leaves_disconnected_witness :
    sampleState.connectedDevice = none ∧
    (connect sampleState "nonexistent-path" (Except.error "TransportError") =
        (sampleState, Except.error "TransportError") ∧
      (connect sampleState "nonexistent-path"
          (Except.error "TransportError")).1.connectedDevice = none ∧
      (connect sampleState "nonexistent-path"
          (Except.error "TransportError")).1.buttonStates =
        sampleState.buttonStates) :=
  ⟨rfl, connect_error_leaves_disconnected sampleState "nonexistent-path"
    "TransportError" rfl⟩

/-- C6: disconnect is idempotent: for a Session already Disconnected (no open
transport handle), invoking disconnect again returns success (not an error),
leaves the state Disconnected, and does not invoke the transport's close
operation a second time. -/
theorem disconnect_idempotent_no_close (st : StreamDeckState)
    (h : st.connectedDevice = none) :
    disconnect_device none = (none, false, Except.ok ()) ∧
    (disconnect st (disconnect_device none).2.2).2 = Except.ok () ∧
    (disconnect st (disconnect_device none).2.2).1.connectedDevice = none :=
  ⟨rfl, rfl, rfl⟩

/-- Witness for C6 at the sample disconnected state. -/
theorem disconnect_idempotent_no_close_witness :
    sampleState.connectedDevice = none ∧
    (disconnect_device none = (none, false, Except.ok ()) ∧
      (disconnect sampleState (disconnect_device none).2.2).2 =
        Except.ok () ∧
      (disconnect sampleState
          (disconnect_device none).2.2).1.connectedDevice = none) :=
  ⟨rfl, disconnect_idempotent_no_close sampleState rfl⟩

/-- C8: For every call to connect(devicePath) in which the backend invoke
succeeds, connectedDevice is set to the (first) DeviceInfo entry of the
current devices list whose path equals devicePath; if no entry of the devices
list has that path, connectedDevice remains null even though the connection
succeeded, and the devices list itself is unchanged. -/
theorem connect_success_sets_device (st : StreamDeckState) (p : String)
    (h : st.connectedDevice = none) :
    (connect st p (Except.ok ())).2 = Except.ok () ∧
    (connect st p (Except.ok ())).1.devices = st.devices ∧
    (connect st p (Except.ok ())).1.buttonStates = st.buttonStates ∧
    (connect st p (Except.ok ())).1.connectedDevice =
      st.devices.find? (fun d => d.path == p) ∧
    (∀ d, st.devices.find? (fun d2 => d2.path == p) = some d →
      d.path = p) := by
  refine ⟨?_, ?_, ?_, ?_, ?_⟩
  · cases hf : st.devices.find? (fun d => d.path == p) <;>
      simp [connect, hf]
  · cases hf : st.devices.find? (fun d => d.path == p) <;>
      simp [connect, hf]
  · cases hf : st.devices.find? (fun d => d.path == p) <;>
      simp [connect, hf]
  · cases hf : st.devices.find? (fun d => d.path == p) <;>
      simp [connect, hf, h]
  · intro d hd
    have hbeq := List.find?_some hd
    exact eq_of_beq hbeq

/-- Witness for C8 at the sample state, connecting to the listed path. -/
theorem connect_success_sets_device_witness :
    sampleState.connectedDevice = none ∧
    ((connect sampleState "hid-path-0" (Except.ok ())).2 = Except.ok () ∧
      (connect sampleState "hid-path-0" (Except.ok ())).1.devices =
        sampleState.devices ∧
      (connect sampleState "hid-path-0" (Except.ok ())).1.buttonStates =
        sampleState.buttonStates ∧
      (connect sampleState "hid-path-0" (Except.ok ())).1.connectedDevice =
        sampleState.devices.find? (fun d => d.path == "hid-path-0") ∧
      (∀ d, sampleState.devices.find?
          (fun d2 => d2.path == "hid-path-0") = some d →
        d.path = "hid-path-0")) :=
  ⟨rfl, connect_success_sets_device sampleState "hid-path-0" rfl⟩

/-- C10: cleanupButtonListener is idempotent: after one call (following a
completed setup) the stored unlisten function has been invoked exactly once
more and the handle is set to null; every subsequent call is a no-op that
invokes nothing; and calling it before setupButtonListener has completed
(while the stored handle is still null, as in the initial state) is likewise
a safe no-op. -/
theorem cleanup_button_listener_idempotent (st : ListenerState)
    (handle : Nat) :
    (cleanupButtonListener (setupButtonListener st handle) =
      { unlistenFn := none, invocations := st.invocations + 1 }) ∧
    (∀ s : ListenerState,
      cleanupButtonListener (cleanupButtonListener s) =
        cleanupButtonListener s) ∧
    (∀ k : Nat,
      cleanupButtonListener { unlistenFn := none, invocations := k } =
        { unlistenFn := none, invocations := k }) ∧
    cleanupButtonListener initialListenerState = initialListenerState := by
  refine ⟨rfl, ?_, fun k => rfl, rfl⟩
  intro s
  rcases s with ⟨fn, inv⟩
  cases fn <;> rfl

/-- C5: For every action whose type key has no registered handler, dispatch
returns a NotFound error naming that unknown key, invokes no handler (no
default is silently invoked); for an action key that is registered, dispatch
invokes exactly the currently registered handler (in particular, after two
registrations for the same key only the latest handler is invoked). -/
theorem dispatch_unregistered_not_found {H : Type}
    (reg : List (String × H)) (a : Action) :
    (lookupHandler reg a.type = none →
      dispatch reg a = DispatchResult.notFound a.type ∧
      ∀ h : H, dispatch reg a ≠ DispatchResult.invoked h) ∧
    (∀ h : H, lookupHandler reg a.type = some h →
      dispatch reg a = DispatchResult.invoked h) ∧
    (∀ (key : String) (h1 h2 : H) (params : List (String × String)),
      dispatch (registerHandler (registerHandler reg key h1) key h2)
        { type := key, params := params } = DispatchResult.invoked h2) := by
  refine ⟨?_, ?_, ?_⟩
  · intro hnone
    constructor
    · unfold dispatch
      rw [hnone]
    · intro h hcontra
      unfold dispatch at hcontra
      rw [hnone] at hcontra
      exact DispatchResult.noConfusion hcontra
  · intro h hsome
    unfold dispatch
    rw [hsome]
  · intro key h1 h2 params
    have hlook : lookupHandler
        (registerHandler (registerHandler reg key h1) key h2) key =
        some h2 := by
      unfold lookupHandler registerHandler
      rw [List.find?_cons_of_pos _ (by simp)]
      rfl
    unfold dispatch
    rw [show ({ type := key, params := params } : Action).type = key from rfl,
      hlook]

/-- Witness for C5: dispatching audio.volume_up against an empty registry
(handlers modelled by Nat identifiers) yields NotFound naming the key;
hypotheses of the other conjuncts are exercised through the same theorem. -/
theorem dispatch_unregistered_not_found_witness :
    lookupHandler ([] : List (String × Nat)) "audio.volume_up" = none ∧
    (dispatch ([] : List (String × Nat))
        { type := "audio.volume_up", params := [] } =
      DispatchResult.notFound "audio.volume_up" ∧
     ∀ h : Nat, dispatch ([] : List (String × Nat))
        { type := "audio.volume_up", params := [] } ≠
      DispatchResult.invoked h) :=
  ⟨rfl, (dispatch_unregistered_not_found ([] : List (String × Nat))
    { type := "audio.volume_up", params := [] }).1 rfl⟩

theorem pollerTick_emits (prev : List Bool) (r : ReadResult) :
    (pollerTick prev r).2 =
      if diff prev (pollerTick prev r).1 = [] then []
      else [(pollerTick prev r).1] := by
  cases r with
  | ok report =>
      by_cases h : 0 < report.length
      · simp [pollerTick, read_buttons, h]
      · simp [pollerTick, read_buttons, h, diff_self]
  | err e => simp [pollerTick, read_buttons, diff_self]

theorem pollerTick_length (prev : List Bool) (r : ReadResult)
    (h : prev.length = 15) : ((pollerTick prev r).1).length = 15 := by
  cases r with
  | ok report =>
      by_cases hp : 0 < report.length
      · simp [pollerTick, read_buttons, hp, decodeStates, BUTTON_COUNT]
      · simp [pollerTick, read_buttons, hp, h]
  | err e => simp [pollerTick, read_buttons, h]

theorem pollerRun_payload_length (rs : List ReadResult) :
    ∀ init : List Bool, init.length = 15 →
      ∀ p ∈ (pollerRun init rs).2, p.length = 15 := by
  induction rs with
  | nil =>
      intro init h p hp
      simp [pollerRun] at hp
  | cons r rest ih =>
      intro init h p hp
      have hsplit : (pollerRun init (r :: rest)).2 =
          (pollerTick init r).2 ++ (pollerRun (pollerTick init r).1 rest).2 :=
        rfl
      rw [hsplit, List.mem_append] at hp
      rcases hp with hp | hp
      · rw [pollerTick_emits] at hp
        by_cases hd : diff init (pollerTick init r).1 = []
        · rw [if_pos hd] at hp
          exact absurd hp (List.not_mem_nil p)
        · rw [if_neg hd] at hp
          rcases List.mem_singleton.mp hp with rfl
          exact pollerTick_length init r h
      · exact ih (pollerTick init r).1 (pollerTick_length init r h) p hp

/-- The spec-side property of the outbound button-state stream for C7: every
payload the poller run emits is a full 15-boolean current state, and a single
tick emits its (full) current state as the payload exactly when the tick
produced at least one edge, and emits nothing otherwise. -/
def EmitSpec (init : List Bool) (rs : List ReadResult) : Prop :=
  (∀ p ∈ (pollerRun init rs).2, p.length = 15) ∧
  ∀ (prev : List Bool) (r : ReadResult),
    (pollerTick prev r).2 =
      if diff prev (pollerTick prev r).1 = [] then []
      else [(pollerTick prev r).1]

/-- C7: Every payload delivered on the outbound button-state event stream is
an ordered sequence of exactly 15 booleans representing the full current
button state after a tick, and such a payload is emitted only for ticks
containing at least one edge (some button changed state). -/
theorem emit_full_state_on_edges (init : List Bool) (rs : List ReadResult)
    (h : init.length = 15) : EmitSpec init rs :=
  ⟨pollerRun_payload_length rs init h, fun prev r => pollerTick_emits prev r⟩

/-- Witness for C7: starting from all-released states, one read whose report
presses button 0. -/
theorem emit_full_state_on_edges_witness :
    (List.replicate 15 false).length = 15 ∧
    EmitSpec (List.replicate 15 false) [ReadResult.ok [1, 0, 0, 0, 1]] :=
  ⟨by decide,
   emit_full_state_on_edges (List.replicate 15 false)
     [ReadResult.ok [1, 0, 0, 0, 1]] (by decide)⟩

end StreamDeckHID
